import Mathlib

set_option maxRecDepth 16384

/-!
Verification model of `prime-gen.mjs` (thilina01/prime-gen), a schema-driven
Angular scaffold generator.  The repository's single source file contains the
current backend-API-based script followed by two earlier variants of the same
script (separated by document markers); claims reference both the current
variant (name derivation, template generation, registry merge, top-level write
order) and the earlier cheerio-based extractor (label fallback chain, raw
type inference).

The embedding works at the level the claims are about:

* Pure string functions (`toCamelCase`, `APP_KEBAB`/`PAS`/`TITLE` derivation,
  template generators, the registry-merge decision) are translated directly
  into Lean functions over `String`/`List Char`.  JavaScript's
  `toUpperCase`/`toLowerCase`/`trim` are modelled for the ASCII range (the
  only characters that survive the generator's `[^a-zA-Z0-9]` stripping);
  JS truthiness of strings/attributes (`a || b`) is modelled explicitly.
* Cheerio DOM queries (`prev('label').text()`, `closest('div').find('label')
  .text()`, `attr(...)`, `prop('tagName')`) are external-library calls; an
  `ElemView` record carries their results per element, and the script's own
  logic over those results is embedded.
* `response.json()` (whole-body JSON parsing by the platform) is modelled by
  a total fuel-based recogniser for the JSON grammar.
* File-system effects are modelled as the ordered list of paths the run
  writes, derived from the script's control flow (the first `await` inside
  `processFormFile` suspends, so the top-level `writeFile` calls after the
  `processFormFile()` invocation run before any remote result is observed).
-/

namespace PrimeGen

/-! ### ASCII character model of the JavaScript string primitives -/

/-- The separator class of the regex `[-_ ]` in `toCamelCase`. -/
def isSepChar (c : Char) : Bool := c == '-' || c == '_' || c == ' '

/-- `[0-9]`. -/
def isDigitChar (c : Char) : Bool := 48 ≤ c.toNat && c.toNat ≤ 57

/-- `[A-Z]`. -/
def isUpperAlpha (c : Char) : Bool := 65 ≤ c.toNat && c.toNat ≤ 90

/-- `[a-z]`. -/
def isLowerAlpha (c : Char) : Bool := 97 ≤ c.toNat && c.toNat ≤ 122

/-- `[a-zA-Z0-9]`, the class kept by `toCamelCase`'s stripping step. -/
def isAlnumChar (c : Char) : Bool := isDigitChar c || isUpperAlpha c || isLowerAlpha c

/-- `[a-z0-9]`, the `$1` class of the case-boundary regex `([a-z0-9])([A-Z])`. -/
def isLowerDigit (c : Char) : Bool := isLowerAlpha c || isDigitChar c

/-- ASCII model of JS `String.prototype.toLowerCase` on one character. -/
def lowerChar (c : Char) : Char :=
  if isUpperAlpha c then Char.ofNat (c.toNat + 32) else c

/-- ASCII model of JS `String.prototype.toUpperCase` on one character. -/
def upperChar (c : Char) : Char :=
  if isLowerAlpha c then Char.ofNat (c.toNat - 32) else c

/-- JS `toLowerCase` over a whole string (ASCII model). -/
def lowerStr (s : String) : String := String.mk (s.data.map lowerChar)

/-- The whitespace class trimmed by JS `String.prototype.trim` (common ASCII part). -/
def isJsWs (c : Char) : Bool :=
  c == ' ' || c == '\t' || c == '\n' || c == '\r' || c == '\x0b' || c == '\x0c'

/-- JS `String.prototype.trim` (ASCII whitespace model). -/
def jsTrim (s : String) : String :=
  String.mk (((s.data.dropWhile isJsWs).reverse.dropWhile isJsWs).reverse)

/-! ### Substring search (JS `String.prototype.includes`) -/

/-- `leadsWith pat l` holds when `pat` is an initial segment of `l`. -/
def leadsWith : List Char → List Char → Bool
  | [], _ => true
  | _ :: _, [] => false
  | c :: cs, d :: ds => c == d && leadsWith cs ds

/-- `occursIn pat l` holds when `pat` occurs contiguously somewhere in `l`. -/
def occursIn (pat : List Char) : List Char → Bool
  | [] => leadsWith pat []
  | d :: ds => leadsWith pat (d :: ds) || occursIn pat ds

/-- JS `s.includes(pat)`. -/
def containsSub (s pat : String) : Bool := occursIn pat.data s.data

/-! ### Name Deriver

`toCamelCase` (source lines 21-26):
```js
str.replace(/[-_ ]+./g, s => s.charAt(s.length - 1).toUpperCase())
   .replace(/[^a-zA-Z0-9]/g, '')
   .replace(/^[A-Z]/, s => s.toLowerCase());
```
The first regex consumes a maximal run of separators plus the following
character (`.` does not match a newline; when the run is followed by a
newline or the end of the input, greedy backtracking makes a run of length
`k ≥ 2` match its own last separator as the `.`, while a single separator
does not match at all).  `camelReplAux` carries the pending separator run
(in reverse) while scanning. -/

/-- Output of a separator run that is not followed by a matchable character:
a run of length ≥ 2 matches `[-_ ]+.` with its last separator as the `.`
(replaced by itself, since `toUpperCase` fixes separators); a single
separator does not match and survives. -/
def sepRunOut (pend : List Char) : List Char :=
  if 2 ≤ pend.length then [pend.headD ' '] else pend.reverse

/-- Scanner for the `[-_ ]+.` replacement; `pend` is the reversed pending
separator run. -/
def camelReplAux : List Char → List Char → List Char
  | pend, [] => sepRunOut pend
  | pend, c :: rest =>
    if isSepChar c then camelReplAux (c :: pend) rest
    else if pend.isEmpty then c :: camelReplAux [] rest
    else if c == '\n' then sepRunOut pend ++ c :: camelReplAux [] rest
    else upperChar c :: camelReplAux [] rest

/-- The `replace(/[-_ ]+./g, ...)` pass of `toCamelCase`. -/
def camelRepl (l : List Char) : List Char := camelReplAux [] l

/-- The `replace(/^[A-Z]/, s => s.toLowerCase())` pass. -/
def lowerFirst : List Char → List Char
  | [] => []
  | c :: cs => (if isUpperAlpha c then lowerChar c else c) :: cs

/-- `toCamelCase` (source lines 21-26). -/
def toCamelCase (s : String) : String :=
  String.mk (lowerFirst ((camelRepl s.data).filter isAlnumChar))

/-- The case-boundary insertion `replace(/([a-z0-9])([A-Z])/g, '$1<sep>$2')`
shared by the `APP_KEBAB` (sep `'-'`, line 32) and `TITLE` (sep `' '`,
line 34) derivations.  After a match the scan resumes after the matched
`[A-Z]`, so that character cannot serve as the `$1` of the next match. -/
def insBoundary (sep : Char) : List Char → List Char
  | a :: b :: rest =>
    if isLowerDigit a && isUpperAlpha b then a :: sep :: b :: insBoundary sep rest
    else a :: insBoundary sep (b :: rest)
  | l => l

/-- `APP_KEBAB` derivation (line 32): insert `'-'` at case boundaries, then
`toLowerCase()`. -/
def kebabOf (camel : String) : String :=
  String.mk ((insBoundary '-' camel.data).map lowerChar)

/-- `PAS` derivation (line 33): `charAt(0).toUpperCase() + slice(1)`. -/
def pascalOf (camel : String) : String :=
  match camel.data with
  | [] => ""
  | c :: cs => String.mk (upperChar c :: cs)

/-- One word of the `TITLE` derivation:
`w.charAt(0).toUpperCase() + w.slice(1).toLowerCase()`. -/
def capWord : List Char → List Char
  | [] => []
  | c :: cs => upperChar c :: cs.map lowerChar

/-- `TITLE` derivation (lines 34-37): insert `' '` at case boundaries,
`split(' ')`, capitalise each word, `join(' ')`. -/
def titleOf (camel : String) : String :=
  String.mk (List.intercalate [' ']
    ((List.splitOn ' ' (insBoundary ' ' camel.data)).map capWord))

/-- The four name variants derived from one raw token (lines 28-37 of the
source: `APP_CAMEL`, `APP_KEBAB`, `PAS`, `TITLE`). -/
structure ModuleName where
  identifier : String
  slug : String
  typeName : String
  title : String
deriving DecidableEq

/-- Derive all four name variants from the raw CLI token: the kebab, pascal
and title forms are computed from `APP_CAMEL = toCamelCase rawAppName`. -/
def deriveNames (token : String) : ModuleName :=
  let c := toCamelCase token
  { identifier := c, slug := kebabOf c, typeName := pascalOf c, title := titleOf c }

/-! ### Schema fields returned by the extraction backend

The current script's `processFormFile` obtains `formFieldsJson` from the
`extract-form-fields` backend and reads `field.label`,
`field.formControlName` and `field.type` from each entry; `type` may be
absent (`generateTableRows` defends with `field.type || 'text'`), hence an
`Option`. -/
structure FieldJson where
  label : String
  type : Option String
  formControlName : String
deriving DecidableEq

/-- `field.type === 'number' ? 'number' : 'string'`, the typing rule of
`generateInterfaceFile` (line 358) and `generateAddItemFunction` (line 414). -/
def jsTypeOf (f : FieldJson) : String :=
  if f.type = some "number" then "number" else "string"

/-! ### Template Generator -/

/-- The per-field lines of `generateFormGroup` (lines 301-309):
`    ${field.formControlName}: new FormControl('', []),`. -/
def generateFormGroupLines (fields : List FieldJson) : List String :=
  fields.map (fun f => "    " ++ f.formControlName ++ ": new FormControl('', []),")

/-- `generateFormGroup` (lines 301-309): the joined lines wrapped in the
template literal. -/
def generateFormGroup (fields : List FieldJson) : String :=
  "\n    " ++ String.intercalate "\n" (generateFormGroupLines fields) ++ "\n"

/-- `tableHeaders` of `generateTable` (lines 312-314): one `<th>` per field. -/
def tableHeaderCells (fields : List FieldJson) : List String :=
  fields.map (fun f => "<th>" ++ f.label ++ "</th>")

/-- `tableCells` of `generateTable` (lines 316-318): one `<td>` per field. -/
def tableBodyCells (fields : List FieldJson) : List String :=
  fields.map (fun f => "<td>\x7b\x7b item." ++ f.formControlName ++ " \x7d\x7d</td>")

/-- The `(click)` attribute of the edit button in the fixed actions column. -/
def editClickAttr : String := "(click)=\"editItem(item.id)\""

/-- The `(click)` attribute of the delete button in the fixed actions column. -/
def deleteClickAttr : String := "(click)=\"deleteItem(item.id)\""

/-- The fixed trailing actions column plus the closing tags of the
`generateTable` template (lines 331-352), written as the source's literal
text with the two button click attributes named. -/
def tableActionsColumnText : String :=
  "\n          <td>\n            <div class=\"flex gap-2\">\n              <button\n                pButton\n                icon=\"pi pi-pencil\"\n                class=\"p-button-warning p-button-sm\"\n                " ++
  editClickAttr ++
  "\n                label=\"\"\n              ></button>\n              <button\n                pButton\n                icon=\"pi pi-trash\"\n                class=\"p-button-danger p-button-sm\"\n                " ++
  deleteClickAttr ++
  "\n                label=\"\"\n              ></button>\n            </div>\n          </td>\n        </tr>\n      </ng-template>\n    </p-table>\n  "

/-- `generateTable` (lines 311-353): header row of per-field `<th>` cells
plus a fixed `Actions` header, body row of per-field `<td>` cells plus the
fixed actions column. -/
def generateTable (fields : List FieldJson) : String :=
  "\n    <p-table [value]=\"items\">\n      <ng-template pTemplate=\"header\">\n        <tr>\n          " ++
  String.intercalate "\n" (tableHeaderCells fields) ++
  "\n          <th>Actions</th>\n        </tr>\n      </ng-template>\n      <ng-template pTemplate=\"body\" let-item>\n        <tr>\n          " ++
  String.intercalate "\n" (tableBodyCells fields) ++
  tableActionsColumnText

/-- The per-field lines of `generateInterfaceFile` (lines 356-360):
`  ${name}: ${type};` with type `number` exactly when the descriptor's type
is `'number'`, else `string`. -/
def interfaceFieldLines (fields : List FieldJson) : List String :=
  fields.map (fun f => "  " ++ f.formControlName ++ ": " ++ jsTypeOf f ++ ";")

/-- `interfaceContent` of `generateInterfaceFile` (line 362): the interface
opens with a generator-supplied `id: number;` line before the schema's
field lines. -/
def generateInterfaceContent (pas : String) (fields : List FieldJson) : String :=
  "export interface " ++ pas ++ " \x7b\n  id: number;\n" ++
  String.intercalate "\n" (interfaceFieldLines fields) ++ "\n\x7d\n"

/-- One `rowFields` entry of `generateAddItemFunction` (lines 412-427). -/
def addItemRowField (field : FieldJson) (index : Nat) : String :=
  let key := field.formControlName
  if jsTypeOf field = "number" then
    if containsSub (lowerStr key) "id" then "      " ++ key ++ ": nextId"
    else if containsSub (lowerStr key) "rev" then "      " ++ key ++ ": 10 + nextId"
    else "      " ++ key ++ ": nextId + " ++ toString index
  else "      " ++ key ++ ": `" ++ key ++ "_val$\x7bnextId\x7d`"

/-- `generateAddItemFunction` (lines 411-439). -/
def generateAddItemFunction (fields : List FieldJson) : String :=
  "  addItem(): void \x7b\n    const nextId = this.items.length + 1;\n    this.items = [\n      ...this.items,\n      \x7b\n      id: nextId,\n" ++
  String.intercalate ",\n" (fields.enum.map (fun p => addItemRowField p.2 p.1)) ++
  "\n      \x7d\n    ];\n  \x7d"

/-- The fixed `editItem`/`deleteItem` block of the generated table component
(template lines 258-267): both operations key on the record's `id`. -/
def tableHandlersText (camel : String) : String :=
  "    editItem(id: number) \x7b\n        const item = this.items.find(i => i.id === id);\n        if (item) \x7b\n            this." ++
  camel ++
  "Service.setSelectedItem(item);\n            this.router.navigate(['../form'], \x7b relativeTo: this.route \x7d);\n        \x7d\n    \x7d\n      deleteItem(id: number): void \x7b\n        this.items = this.items.filter(item => item.id !== id);\n      \x7d\n"

/-- The generated `<kebab>-table.component.ts` text (template lines
225-270).  `tableRowsText` stands for the interpolated
`generateTableRows(formFieldsJson)` statement (whose demo values go through
JavaScript float formatting, external to this model); the other
interpolations are the derived names and `generateAddItemFunction`. -/
def tableComponentTs (pas kebab camel tableRowsText : String)
    (fields : List FieldJson) : String :=
  "\nimport \x7b Component, OnInit, ChangeDetectionStrategy \x7d from '@angular/core';\nimport \x7b CommonModule \x7d from '@angular/common';\nimport \x7b ActivatedRoute, Router \x7d from '@angular/router';\nimport \x7b TableModule \x7d from 'primeng/table';\nimport \x7b ButtonModule \x7d from 'primeng/button';\nimport \x7b RippleModule \x7d from 'primeng/ripple';\nimport \x7b " ++
  pas ++ "Service \x7d from './" ++ kebab ++ ".service';\nimport \x7b " ++
  pas ++ " \x7d from './" ++ kebab ++ ".model';\n\n@Component(\x7b\n  selector: 'app-" ++
  kebab ++ "-table',\n  standalone: true,\n  changeDetection: ChangeDetectionStrategy.OnPush,\n  imports: [CommonModule, TableModule, ButtonModule, RippleModule],\n  templateUrl: './" ++
  kebab ++ "-table.component.html',\n  styleUrls: ['./" ++
  kebab ++ "-table.component.scss']\n\x7d)\nexport class " ++
  pas ++ "TableComponent implements OnInit \x7b\n  items: " ++
  pas ++ "[] = [];\n\n  constructor(private router: Router,\n      private route: ActivatedRoute, \n      private " ++
  camel ++ "Service: " ++ pas ++ "Service) \x7b \x7d\n\n\n  ngOnInit(): void \x7b\n      " ++
  tableRowsText ++ "\n  \x7d\n\n      " ++
  generateAddItemFunction fields ++ "\n\n\n" ++
  tableHandlersText camel ++ "\n\x7d\n"

/-! ### Registry Merger (`updateAppsRoutesTs`, lines 175-200)

ts-morph locates the first array literal of `apps.routes.ts`; the model
carries that array as the list of its elements' source texts.  The merge
scans the elements' text for `path: '<kebab>'` (JS `includes`); on a hit it
returns without touching the file, otherwise it appends a new route literal
and saves. -/

/-- The duplicate-detection needle `path: '${appKebab}'` (line 182). -/
def routeNeedle (k : String) : String := "path: '" ++ k ++ "'"

/-- The `newRoute` literal appended by `updateAppsRoutesTs` (lines 189-194);
its second line is exactly `    ` followed by the needle and a comma. -/
def newRouteText (k t c : String) : String :=
  "\x7b\n    " ++ routeNeedle k ++
  ",\n    data: \x7b breadcrumb: '" ++ t ++
  "' \x7d,\n    loadChildren: () =>\n      import('@/apps/" ++ k ++ "/" ++ k ++
  ".routes').then(m => m." ++ c ++ "Routes)\n  \x7d"

/-- Outcome of one registry merge: the early-return branch (line 184-187)
versus the append-and-save branch (lines 196-197). -/
inductive MergeResult where
  | inserted
  | alreadyExists
deriving DecidableEq

/-- `updateAppsRoutesTs` over the routes array's element texts: returns the
outcome and the array state after the call (the file is only rewritten on
insertion). -/
def updateAppsRoutesTs (routes : List String) (appKebab appTitle appCamel : String) :
    MergeResult × List String :=
  if routes.any (fun el => containsSub el (routeNeedle appKebab)) then
    (.alreadyExists, routes)
  else
    (.inserted, routes ++ [newRouteText appKebab appTitle appCamel])

/-! ### Cheerio extraction loop (earlier script variant, source lines 586-603)

```js
$('input, select, textarea').each((index, element) => {
  let label = $(element).prev('label').text().trim();
  if (!label) {
    label = $(element).closest('div').find('label').text().trim()
         || $(element).attr('id') || $(element).attr('placeholder') || 'Unnamed';
  }
  const inputType = $(element).attr('type') || $(element).prop('tagName').toLowerCase();
  const fieldType = $(element).prop('tagName').toLowerCase();
  formFields.push({ label, type: fieldType, inputType, validators: {} });
});
```
`ElemView` carries the results of the cheerio queries for one selected
element: `prevLabelText` is `$(el).prev('label').text()` (empty when the
immediately preceding element sibling is not a label), `closestDivLabelText`
is the concatenated text of every `label` descendant of the nearest ancestor
`div`, the attributes are `undefined`-able, and `tagName` is the DOM
upper-case tag name. -/
structure ElemView where
  prevLabelText : String
  closestDivLabelText : String
  idAttr : Option String
  placeholderAttr : Option String
  tagName : String
  typeAttr : Option String
deriving DecidableEq

/-- JS `a || b` where `a` is a possibly-`undefined` string attribute:
`undefined` and `""` are falsy, any other string (even whitespace-only) is
truthy. -/
def jsAttrOr (a : Option String) (b : String) : String :=
  match a with
  | some s => if s = "" then b else s
  | none => b

/-- The label computation of the extraction loop (lines 587-592). -/
def labelOf (e : ElemView) : String :=
  let label := jsTrim e.prevLabelText
  if label = "" then
    let c2 := jsTrim e.closestDivLabelText
    if c2 = "" then jsAttrOr e.idAttr (jsAttrOr e.placeholderAttr "Unnamed") else c2
  else label

/-- The label fallback chain exactly as claim C3 states it: every tier is
skipped when it yields empty or whitespace-only text, and the final
fallback is the literal `"Untitled"`.  Written from the claim's words, to
be compared against `labelOf` (which is written from the source). -/
def claimLabelChain (e : ElemView) : String :=
  let c1 := jsTrim e.prevLabelText
  if c1 ≠ "" then c1
  else
    let c2 := jsTrim e.closestDivLabelText
    if c2 ≠ "" then c2
    else
      let c3 := jsTrim (e.idAttr.getD "")
      if c3 ≠ "" then c3
      else
        let c4 := jsTrim (e.placeholderAttr.getD "")
        if c4 ≠ "" then c4 else "Untitled"

/-- `inputType` (line 594): the explicit `type` attribute when truthy, else
the lower-cased tag name. -/
def inputTypeOf (e : ElemView) : String := jsAttrOr e.typeAttr (lowerStr e.tagName)

/-- `fieldType` (line 595): always the lower-cased tag name. -/
def fieldTypeOf (e : ElemView) : String := lowerStr e.tagName

/-- One extracted descriptor (the object pushed at lines 597-602;
`validators` is always the empty object and is omitted). -/
structure CheerioField where
  label : String
  type : String
  inputType : String
deriving DecidableEq

/-- The record pushed for one selected element. -/
def extractedField (e : ElemView) : CheerioField :=
  { label := labelOf e, type := fieldTypeOf e, inputType := inputTypeOf e }

/-- The extraction loop over the selected elements in document order. -/
def processFormFields (es : List ElemView) : List CheerioField :=
  es.map extractedField

/-! ### JSON recogniser (model of `response.json()` in
`extractFormFieldsToJson`, lines 61-80)

The script parses the entire response body with the platform's JSON parser
and exits the process when that throws.  `jsonScan` is a fuel-based
recogniser for the JSON grammar: in mode `value` it consumes one JSON value
from the input and returns the remaining characters; modes `arrItems` and
`objItems` consume the remainder of an array or object after its first
element position. -/

/-- JSON whitespace. -/
def isJsonWs (c : Char) : Bool := c == ' ' || c == '\t' || c == '\n' || c == '\r'

/-- Expect a literal character sequence. -/
def dropLit : List Char → List Char → Option (List Char)
  | [], rest => some rest
  | _ :: _, [] => none
  | c :: cs, d :: rest => if c == d then dropLit cs rest else none

/-- Consume a JSON string body after the opening quote. -/
def scanStrBody : Nat → List Char → Option (List Char)
  | 0, _ => none
  | _, [] => none
  | fuel + 1, c :: rest =>
    if c == '"' then some rest
    else if c == '\\' then
      match rest with
      | [] => none
      | _ :: r2 => scanStrBody fuel r2
    else scanStrBody fuel rest

/-- Consume one or more digits. -/
def scanDigits (l : List Char) : Option (List Char) :=
  if (l.takeWhile isDigitChar).isEmpty then none else some (l.dropWhile isDigitChar)

/-- Consume an optional fraction part. -/
def scanFrac : List Char → Option (List Char)
  | '.' :: r => scanDigits r
  | l => some l

/-- Consume an optional exponent part. -/
def scanExp : List Char → Option (List Char)
  | 'e' :: r =>
    (match r with
     | '+' :: r2 => scanDigits r2
     | '-' :: r2 => scanDigits r2
     | _ => scanDigits r)
  | 'E' :: r =>
    (match r with
     | '+' :: r2 => scanDigits r2
     | '-' :: r2 => scanDigits r2
     | _ => scanDigits r)
  | l => some l

/-- Consume a JSON number. -/
def scanNum (l : List Char) : Option (List Char) :=
  let l1 := match l with | '-' :: r => r | _ => l
  match scanDigits l1 with
  | none => none
  | some r1 =>
    match scanFrac r1 with
    | none => none
    | some r2 => scanExp r2

/-- Parsing mode of `jsonScan`. -/
inductive JsonMode where
  | value
  | arrItems
  | objItems

/-- Fuel-based JSON recogniser; returns the input remaining after the
consumed construct, or `none` on malformed input or fuel exhaustion. -/
def jsonScan : Nat → JsonMode → List Char → Option (List Char)
  | 0, _, _ => none
  | fuel + 1, .value, l =>
    (match l.dropWhile isJsonWs with
     | '[' :: rest =>
       (match rest.dropWhile isJsonWs with
        | ']' :: r => some r
        | _ => jsonScan fuel .arrItems rest)
     | '\x7b' :: rest =>
       (match rest.dropWhile isJsonWs with
        | '\x7d' :: r => some r
        | _ => jsonScan fuel .objItems rest)
     | '"' :: rest => scanStrBody (rest.length + 1) rest
     | 't' :: rest => dropLit ['r', 'u', 'e'] rest
     | 'f' :: rest => dropLit ['a', 'l', 's', 'e'] rest
     | 'n' :: rest => dropLit ['u', 'l', 'l'] rest
     | l2 => scanNum l2)
  | fuel + 1, .arrItems, l =>
    (match jsonScan fuel .value l with
     | none => none
     | some rest =>
       (match rest.dropWhile isJsonWs with
        | ',' :: r => jsonScan fuel .arrItems r
        | ']' :: r => some r
        | _ => none))
  | fuel + 1, .objItems, l =>
    (match l.dropWhile isJsonWs with
     | '"' :: rest =>
       (match scanStrBody (rest.length + 1) rest with
        | none => none
        | some r1 =>
          (match r1.dropWhile isJsonWs with
           | ':' :: r2 =>
             (match jsonScan fuel .value r2 with
              | none => none
              | some r3 =>
                (match r3.dropWhile isJsonWs with
                 | ',' :: r4 => jsonScan fuel .objItems r4
                 | '\x7d' :: r5 => some r5
                 | _ => none))
           | _ => none))
     | _ => none)

/-- Whether the whole body is one well-formed JSON document (the acceptance
condition of the platform's `JSON.parse`, hence of `response.json()`). -/
def jsonWhole (s : String) : Bool :=
  match jsonScan (2 * s.length + 4) .value s.data with
  | some rest => (rest.dropWhile isJsonWs).isEmpty
  | none => false

/-- `extractFormFieldsToJson`'s handling of a received response body (lines
74-79): the entire body goes through `response.json()`; a parse failure is
caught and aborts the run with `process.exit(1)` (modelled as `none`). -/
def extractFormFieldsResult (body : String) : Option String :=
  if jsonWhole body then some body else none

/-- Whether a well-formed JSON array or object begins exactly at the head of
`l`.  Written from the claim's words (claim C8's "first well-formed JSON
array/object substring"). -/
def jsonSubFrom (l : List Char) : Bool :=
  match l with
  | '[' :: _ => (jsonScan (2 * l.length + 4) .value l).isSome
  | '\x7b' :: _ => (jsonScan (2 * l.length + 4) .value l).isSome
  | _ => false

/-- Whether some suffix of `l` starts with a well-formed JSON array/object
substring; the claimed behaviour succeeds exactly on such bodies. -/
def hasJsonSub : List Char → Bool
  | [] => false
  | c :: rest => jsonSubFrom (c :: rest) || hasJsonSub rest

/-! ### File writes of one run (all-or-nothing contract, claim C1)

Temporal order of `writeFile` calls in the current script:
`processFormFile()` is invoked at line 274 and runs synchronously up to the
`await fetch` inside `extractFormFieldsToJson` (line 69).  An invalid HTML
path makes `getHtmlFilePath` call `process.exit(1)` (lines 50-56) before any
`writeFile`.  Otherwise the async call suspends and the remaining top-level
statements run first: the routes module write (line 280) and the two scss
placeholder writes (lines 441, 443).  Only then does the async continuation
resume: a failed or unparseable `extract-form-fields` response exits (lines
76-79) — likewise a failed `generate-tailwind-form` call (lines 98-101) —
leaving the three top-level files in place; on success the six remaining
artifacts are written (lines 108-110, 112, 202, 225).  The contents are
immaterial to the claim, so the trace records the written paths. -/

/-- `BASE` (line 38). -/
def basePath (kebab : String) : String := "src/app/apps/" ++ kebab

/-- Paths written unconditionally at top level, in temporal order. -/
def topLevelWritePaths (kebab : String) : List String :=
  [basePath kebab ++ "/" ++ kebab ++ ".routes.ts",
   basePath kebab ++ "/" ++ kebab ++ "-form.component.scss",
   basePath kebab ++ "/" ++ kebab ++ "-table.component.scss"]

/-- Paths written by `processFormFile` once both remote calls succeed, in
temporal order. -/
def generationWritePaths (kebab : String) : List String :=
  [basePath kebab ++ "/" ++ kebab ++ "-form.component.html",
   basePath kebab ++ "/" ++ kebab ++ ".model.ts",
   basePath kebab ++ "/" ++ kebab ++ ".service.ts",
   basePath kebab ++ "/" ++ kebab ++ "-form.component.ts",
   basePath kebab ++ "/" ++ kebab ++ "-table.component.html",
   basePath kebab ++ "/" ++ kebab ++ "-table.component.ts"]

/-- How far one run gets before failing (or succeeding). -/
inductive RunOutcome where
  | invalidPath
  | extractFail
  | htmlGenFail
  | success
deriving DecidableEq

/-- The module-directory files written by a run with the given outcome, in
temporal order (derivation in the section comment above). -/
def runWrittenFiles (kebab : String) : RunOutcome → List String
  | .invalidPath => []
  | .extractFail => topLevelWritePaths kebab
  | .htmlGenFail => topLevelWritePaths kebab
  | .success => topLevelWritePaths kebab ++ generationWritePaths kebab

/-- The identifier pattern `[a-zA-Z][a-zA-Z0-9]*` asserted by claim C6 of
every normalised label. -/
def matchesIdentPattern (s : String) : Bool :=
  match s.data with
  | [] => false
  | c :: cs => (isUpperAlpha c || isLowerAlpha c) && cs.all isAlnumChar

/-- The spec's concrete two-field scenario (§8 item 6): `First Name` with
derived control name, `Email` with explicit machine name `emailAddress`. -/
def demoFields : List FieldJson :=
  [{ label := "First Name", type := some "text", formControlName := "firstName" },
   { label := "Email", type := some "text", formControlName := "emailAddress" }]

/-- A selected element with no label anywhere, no id and no placeholder. -/
def c3elem : ElemView :=
  { prevLabelText := "", closestDivLabelText := "", idAttr := none,
    placeholderAttr := none, tagName := "INPUT", typeAttr := none }

/-- A selected element whose first two label tiers are whitespace-only and
whose id attribute is set. -/
def c3probe : ElemView :=
  { prevLabelText := "  ", closestDivLabelText := "\n", idAttr := some "customerId",
    placeholderAttr := none, tagName := "INPUT", typeAttr := none }

/-- A `textarea` element with no explicit `type` attribute. -/
def c7probe : ElemView :=
  { prevLabelText := "Address", closestDivLabelText := "", idAttr := some "address",
    placeholderAttr := none, tagName := "TEXTAREA", typeAttr := none }

/-! ## Helper lemmas -/

theorem toNat_ofNat_lt (n : Nat) (h : n < 55296) : (Char.ofNat n).toNat = n := by
  have hv : Nat.isValidChar n := Or.inl h
  simp only [Char.ofNat, dif_pos hv]
  simp [Char.ofNatAux, Char.toNat, UInt32.toNat]

theorem char_toNat_inj {a b : Char} (h : a.toNat = b.toNat) : a = b := by
  rw [← Char.ofNat_toNat a, ← Char.ofNat_toNat b, h]

theorem lowerChar_toNat (c : Char) :
    (lowerChar c).toNat = if 65 ≤ c.toNat ∧ c.toNat ≤ 90 then c.toNat + 32 else c.toNat := by
  by_cases hu : isUpperAlpha c = true
  · have hb : 65 ≤ c.toNat ∧ c.toNat ≤ 90 := by
      simpa [isUpperAlpha, Bool.and_eq_true, decide_eq_true_eq] using hu
    simp [lowerChar, hu, toNat_ofNat_lt _ (show c.toNat + 32 < 55296 by omega), hb]
  · have hb : ¬(65 ≤ c.toNat ∧ c.toNat ≤ 90) := by
      simpa [isUpperAlpha, Bool.and_eq_true, decide_eq_true_eq] using hu
    simp [lowerChar, hu, hb]

theorem upperChar_toNat (c : Char) :
    (upperChar c).toNat = if 97 ≤ c.toNat ∧ c.toNat ≤ 122 then c.toNat - 32 else c.toNat := by
  by_cases hl : isLowerAlpha c = true
  · have hb : 97 ≤ c.toNat ∧ c.toNat ≤ 122 := by
      simpa [isLowerAlpha, Bool.and_eq_true, decide_eq_true_eq] using hl
    simp [upperChar, hl, toNat_ofNat_lt _ (show c.toNat - 32 < 55296 by omega), hb]
  · have hb : ¬(97 ≤ c.toNat ∧ c.toNat ≤ 122) := by
      simpa [isLowerAlpha, Bool.and_eq_true, decide_eq_true_eq] using hl
    simp [upperChar, hl, hb]

theorem isAlnumChar_iff {c : Char} :
    isAlnumChar c = true ↔
      (48 ≤ c.toNat ∧ c.toNat ≤ 57) ∨ (65 ≤ c.toNat ∧ c.toNat ≤ 90)
        ∨ (97 ≤ c.toNat ∧ c.toNat ≤ 122) := by
  simp [isAlnumChar, isDigitChar, isUpperAlpha, isLowerAlpha, Bool.or_eq_true,
    Bool.and_eq_true, decide_eq_true_eq, or_assoc]

theorem isAlnumChar_lowerChar {c : Char} (h : isAlnumChar c = true) :
    isAlnumChar (lowerChar c) = true := by
  rw [isAlnumChar_iff, lowerChar_toNat]
  rcases isAlnumChar_iff.mp h with h1 | h1 | h1 <;> split_ifs <;> omega

theorem lowerChar_ne_space {c : Char} (h : isAlnumChar c = true) : lowerChar c ≠ ' ' := by
  intro heq
  have ht : (lowerChar c).toNat = 32 := by rw [heq]; rfl
  rw [lowerChar_toNat] at ht
  rcases isAlnumChar_iff.mp h with h1 | h1 | h1 <;> split_ifs at ht <;> omega

theorem lowerChar_lowerChar (c : Char) : lowerChar (lowerChar c) = lowerChar c := by
  apply char_toNat_inj
  rw [lowerChar_toNat, lowerChar_toNat]
  split_ifs <;> omega

theorem lowerChar_upperChar (c : Char) : lowerChar (upperChar c) = lowerChar c := by
  apply char_toNat_inj
  rw [lowerChar_toNat, upperChar_toNat, lowerChar_toNat]
  split_ifs <;> omega

theorem map_intersperse' (f : α → β) (a : α) (l : List α) :
    (l.intersperse a).map f = (l.map f).intersperse (f a) := by
  induction l with
  | nil => rfl
  | cons x rest ih =>
    cases rest with
    | nil => rfl
    | cons y t =>
      simp only [List.intersperse, List.map] at *
      rw [ih]

theorem map_intercalate' (f : α → β) (sep : List α) (ws : List (List α)) :
    (List.intercalate sep ws).map f
      = List.intercalate (sep.map f) (ws.map (fun w => w.map f)) := by
  simp only [List.intercalate]
  rw [List.map_flatten, map_intersperse']

theorem map_lowerChar_capWord (w : List Char) :
    (capWord w).map lowerChar = w.map lowerChar := by
  cases w with
  | nil => rfl
  | cons c cs =>
    simp [capWord, lowerChar_upperChar, List.map_map, Function.comp, lowerChar_lowerChar]

theorem map_lowerChar_titleOf (camel : String) :
    (titleOf camel).data.map lowerChar = (insBoundary ' ' camel.data).map lowerChar := by
  show (List.intercalate [' ']
      ((List.splitOn ' ' (insBoundary ' ' camel.data)).map capWord)).map lowerChar = _
  rw [map_intercalate']
  have h1 : ([' '].map lowerChar) = [' '] := by decide
  rw [h1, List.map_map]
  have h2 : ((fun w => List.map lowerChar w) ∘ capWord) = fun w => List.map lowerChar w := by
    funext w
    exact map_lowerChar_capWord w
  rw [h2]
  have h3 := map_intercalate' lowerChar [' '] (List.splitOn ' ' (insBoundary ' ' camel.data))
  rw [h1] at h3
  rw [← h3, List.intercalate_splitOn]

theorem insB_lower_comm : ∀ l : List Char, l.all isAlnumChar = true →
    (insBoundary '-' l).map lowerChar
      = ((insBoundary ' ' l).map lowerChar).map (fun c => if c = ' ' then '-' else c)
  | [] => fun _ => rfl
  | [a] => fun h => by
    have ha : isAlnumChar a = true := by simpa using h
    simp [insBoundary, lowerChar_ne_space ha]
  | a :: b :: rest => fun h => by
    have hab : isAlnumChar a = true ∧ isAlnumChar b = true ∧ rest.all isAlnumChar = true := by
      simpa [List.all_cons, Bool.and_eq_true] using h
    by_cases hbd : (isLowerDigit a && isUpperAlpha b) = true
    · simp only [insBoundary, hbd, if_true, List.map_cons]
      rw [insB_lower_comm rest hab.2.2]
      have hsp : lowerChar ' ' = ' ' := by decide
      have hhy : lowerChar '-' = '-' := by decide
      simp [hsp, hhy, lowerChar_ne_space hab.1, lowerChar_ne_space hab.2.1]
    · simp only [insBoundary, hbd, Bool.false_eq_true, if_false, List.map_cons]
      rw [insB_lower_comm (b :: rest) (by simp [List.all_cons, hab.2.1, hab.2.2])]
      simp [lowerChar_ne_space hab.1]

theorem toCamelCase_alnum (s : String) : (toCamelCase s).data.all isAlnumChar = true := by
  show (lowerFirst ((camelRepl s.data).filter isAlnumChar)).all isAlnumChar = true
  generalize camelRepl s.data = l
  cases hfl : l.filter isAlnumChar with
  | nil => simp [lowerFirst]
  | cons c cs =>
    have hf : (c :: cs).all isAlnumChar = true := by
      rw [← hfl]
      simp only [List.all_eq_true]
      intro x hx
      exact (List.mem_filter.mp hx).2
    simp only [List.all_cons, Bool.and_eq_true] at hf
    simp only [lowerFirst, List.all_cons, Bool.and_eq_true]
    refine ⟨?_, hf.2⟩
    split_ifs with hu
    · exact isAlnumChar_lowerChar hf.1
    · exact hf.1

theorem leadsWith_append (a b : List Char) : leadsWith a (a ++ b) = true := by
  induction a with
  | nil => rfl
  | cons c cs ih => simp [leadsWith, ih]

theorem leadsWith_cancel (x y z : List Char) :
    leadsWith (x ++ y) (x ++ z) = leadsWith y z := by
  induction x with
  | nil => rfl
  | cons c cs ih => simp [leadsWith, ih]

theorem occursIn_here (pat y : List Char) : occursIn pat (pat ++ y) = true := by
  cases pat with
  | nil => cases y <;> simp [occursIn, leadsWith]
  | cons c cs =>
    have h := leadsWith_append (c :: cs) y
    simp only [List.cons_append] at h ⊢
    simp [occursIn, h]

theorem occursIn_append_left (pat x y : List Char) (h : occursIn pat y = true) :
    occursIn pat (x ++ y) = true := by
  induction x with
  | nil => simpa using h
  | cons e x' ih => simp [occursIn, ih]

theorem map_getD_of_lt (f : α → β) (l : List α) (i : Nat) (d : α) (e : β)
    (h : i < l.length) : (l.map f).getD i e = f (l.getD i d) := by
  induction l generalizing i with
  | nil => simp at h
  | cons a tl ih =>
    cases i with
    | zero => simp
    | succ n =>
      simp only [List.map_cons, List.getD_cons_succ]
      exact ih n (by simpa using h)

/-! ## Claims -/

/-- Claim C1 (counterexample): a run whose remote extraction call fails has
already written the routes module and both scss placeholders — not nothing
— refuting the all-or-nothing contract as stated. -/
theorem c1_counterexample :
    runWrittenFiles "order-entry" .extractFail
      = ["src/app/apps/order-entry/order-entry.routes.ts",
         "src/app/apps/order-entry/order-entry-form.component.scss",
         "src/app/apps/order-entry/order-entry-table.component.scss"]
    ∧ runWrittenFiles "order-entry" .extractFail ≠ [] := by
  decide

/-- Claim C1 (amended): an invalid input path aborts before any write, but a
failure of either remote call leaves exactly the three top-level files
(routes module and both scss placeholders) written; only the six
generation-dependent artifacts are withheld. -/
theorem c1_partial_writes (kebab : String) :
    runWrittenFiles kebab .invalidPath = []
    ∧ runWrittenFiles kebab .extractFail = topLevelWritePaths kebab
    ∧ runWrittenFiles kebab .htmlGenFail = topLevelWritePaths kebab
    ∧ topLevelWritePaths kebab ≠ []
    ∧ runWrittenFiles kebab .success
        = topLevelWritePaths kebab ++ generationWritePaths kebab := by
  exact ⟨rfl, rfl, rfl, by simp [topLevelWritePaths], rfl⟩

/-- Claim C2: merging an entry not yet present inserts it and appends one
element; merging the same entry again reports it as already existing and
returns the registry unchanged, so the entry count rises by exactly one
across both calls. -/
theorem c2_idempotent_merge (routes : List String) (k t c : String)
    (h : routes.any (fun el => containsSub el (routeNeedle k)) = false) :
    updateAppsRoutesTs routes k t c = (.inserted, routes ++ [newRouteText k t c])
    ∧ updateAppsRoutesTs (routes ++ [newRouteText k t c]) k t c
        = (.alreadyExists, routes ++ [newRouteText k t c])
    ∧ (routes ++ [newRouteText k t c]).length = routes.length + 1 := by
  have hnew : containsSub (newRouteText k t c) (routeNeedle k) = true := by
    show occursIn (routeNeedle k).data (newRouteText k t c).data = true
    simp only [newRouteText, String.data_append, List.append_assoc]
    exact occursIn_append_left _ _ _ (occursIn_here _ _)
  refine ⟨?_, ?_, by simp⟩
  · simp [updateAppsRoutesTs, h]
  · have hany : (routes ++ [newRouteText k t c]).any
        (fun el => containsSub el (routeNeedle k)) = true := by
      simp [List.any_append, hnew]
    simp [updateAppsRoutesTs, hany]

/-- Claim C2 (witness): the concrete `order-entry` scenario on an initially
empty routes array. -/
theorem c2_witness :
    updateAppsRoutesTs [] "order-entry" "Order Entry" "orderEntry"
      = (.inserted, [newRouteText "order-entry" "Order Entry" "orderEntry"])
    ∧ updateAppsRoutesTs [newRouteText "order-entry" "Order Entry" "orderEntry"]
        "order-entry" "Order Entry" "orderEntry"
      = (.alreadyExists, [newRouteText "order-entry" "Order Entry" "orderEntry"])
    ∧ ([] ++ [newRouteText "order-entry" "Order Entry" "orderEntry"]).length
        = List.length ([] : List String) + 1 := by
  have h := c2_idempotent_merge [] "order-entry" "Order Entry" "orderEntry" rfl
  simpa using h

/-- Claim C3 (counterexample): an element with no labels, no id and no
placeholder gets label `"Unnamed"`, not the claimed `"Untitled"`. -/
theorem c3_counterexample :
    labelOf c3elem = "Unnamed" ∧ claimLabelChain c3elem = "Untitled"
    ∧ labelOf c3elem ≠ claimLabelChain c3elem := by
  decide

/-- Claim C3 (amended): the label falls back through (i) trimmed preceding
sibling label text, (ii) trimmed text of the labels in the nearest ancestor
div, (iii) the id attribute if present and nonempty (used untrimmed, even
when whitespace-only), (iv) the placeholder attribute likewise, and finally
(v) the literal `"Unnamed"`. -/
theorem c3_label_chain (e : ElemView) :
    (jsTrim e.prevLabelText ≠ "" → labelOf e = jsTrim e.prevLabelText)
    ∧ (jsTrim e.prevLabelText = "" → jsTrim e.closestDivLabelText ≠ "" →
        labelOf e = jsTrim e.closestDivLabelText)
    ∧ (∀ s, jsTrim e.prevLabelText = "" → jsTrim e.closestDivLabelText = "" →
        e.idAttr = some s → s ≠ "" → labelOf e = s)
    ∧ (∀ s, jsTrim e.prevLabelText = "" → jsTrim e.closestDivLabelText = "" →
        (e.idAttr = none ∨ e.idAttr = some "") →
        e.placeholderAttr = some s → s ≠ "" → labelOf e = s)
    ∧ (jsTrim e.prevLabelText = "" → jsTrim e.closestDivLabelText = "" →
        (e.idAttr = none ∨ e.idAttr = some "") →
        (e.placeholderAttr = none ∨ e.placeholderAttr = some "") →
        labelOf e = "Unnamed") := by
  refine ⟨?_, ?_, ?_, ?_, ?_⟩
  · intro h1
    simp [labelOf, h1]
  · intro h1 h2
    simp [labelOf, h1, h2]
  · intro s h1 h2 h3 h4
    simp [labelOf, h1, h2, jsAttrOr, h3, h4]
  · intro s h1 h2 h3 h4 h5
    rcases h3 with h3 | h3 <;> simp [labelOf, h1, h2, jsAttrOr, h3, h4, h5]
  · intro h1 h2 h3 h4
    rcases h3 with h3 | h3 <;> rcases h4 with h4 | h4 <;>
      simp [labelOf, h1, h2, jsAttrOr, h3, h4]

/-- Claim C3 (witness): on an element whose first two tiers are
whitespace-only and whose id is `customerId`, the chain yields the id. -/
theorem c3_witness : labelOf c3probe = "customerId" :=
  (c3_label_chain c3probe).2.2.1 "customerId" (by decide) (by decide) rfl (by decide)

/-- Claim C4: the generated form-group lines, table header cells, table body
cells and model interface lines all have exactly one entry per schema field,
and the `i`-th entry of each is built from the `i`-th schema field, so every
artifact preserves the schema's field order. -/
theorem c4_order_preservation (fields : List FieldJson) (i : Nat) (dflt : FieldJson)
    (h : i < fields.length) :
    (generateFormGroupLines fields).length = fields.length
    ∧ (tableHeaderCells fields).length = fields.length
    ∧ (tableBodyCells fields).length = fields.length
    ∧ (interfaceFieldLines fields).length = fields.length
    ∧ (generateFormGroupLines fields).getD i ""
        = "    " ++ (fields.getD i dflt).formControlName ++ ": new FormControl('', []),"
    ∧ (tableHeaderCells fields).getD i ""
        = "<th>" ++ (fields.getD i dflt).label ++ "</th>"
    ∧ (tableBodyCells fields).getD i ""
        = "<td>\x7b\x7b item." ++ (fields.getD i dflt).formControlName ++ " \x7d\x7d</td>"
    ∧ (interfaceFieldLines fields).getD i ""
        = "  " ++ (fields.getD i dflt).formControlName ++ ": "
            ++ jsTypeOf (fields.getD i dflt) ++ ";" := by
  refine ⟨by simp [generateFormGroupLines], by simp [tableHeaderCells],
    by simp [tableBodyCells], by simp [interfaceFieldLines], ?_, ?_, ?_, ?_⟩
  · exact map_getD_of_lt _ fields i dflt "" h
  · exact map_getD_of_lt _ fields i dflt "" h
  · exact map_getD_of_lt _ fields i dflt "" h
  · exact map_getD_of_lt _ fields i dflt "" h

/-- Claim C4 (witness): the spec's two-field scenario at index 0. -/
theorem c4_witness :
    (generateFormGroupLines demoFields).length = demoFields.length
    ∧ (tableHeaderCells demoFields).length = demoFields.length
    ∧ (tableBodyCells demoFields).length = demoFields.length
    ∧ (interfaceFieldLines demoFields).length = demoFields.length
    ∧ (generateFormGroupLines demoFields).getD 0 ""
        = "    " ++ (demoFields.getD 0 { label := "", type := none, formControlName := "" }).formControlName ++ ": new FormControl('', []),"
    ∧ (tableHeaderCells demoFields).getD 0 ""
        = "<th>" ++ (demoFields.getD 0 { label := "", type := none, formControlName := "" }).label ++ "</th>"
    ∧ (tableBodyCells demoFields).getD 0 ""
        = "<td>\x7b\x7b item." ++ (demoFields.getD 0 { label := "", type := none, formControlName := "" }).formControlName ++ " \x7d\x7d</td>"
    ∧ (interfaceFieldLines demoFields).getD 0 ""
        = "  " ++ (demoFields.getD 0 { label := "", type := none, formControlName := "" }).formControlName ++ ": "
            ++ jsTypeOf (demoFields.getD 0 { label := "", type := none, formControlName := "" }) ++ ";" :=
  c4_order_preservation demoFields 0 { label := "", type := none, formControlName := "" } (by decide)

/-- Claim C5: the token `"orderEntry"` derives the concrete quadruple, and
`deriveNames` is a pure function, so two calls on the same token agree. -/
theorem c5_name_derivation :
    deriveNames "orderEntry"
      = { identifier := "orderEntry", slug := "order-entry",
          typeName := "OrderEntry", title := "Order Entry" }
    ∧ ∀ t : String, deriveNames t = deriveNames t :=
  ⟨by decide, fun _ => rfl⟩

/-- Claim C6 (counterexample): `toCamelCase "123" = "123"` starts with a
digit and so violates the claimed pattern `[a-zA-Z][a-zA-Z0-9]*`; no
placeholder prefix is applied. -/
theorem c6_counterexample :
    matchesIdentPattern (toCamelCase "123") = false ∧ toCamelCase "123" = "123" := by
  decide

/-- Claim C6 (amended): `toCamelCase` output consists of letters and digits
only, but may be empty or begin with a digit — the code has no placeholder
fallback. -/
theorem c6_identifier_chars :
    (∀ l : String, (toCamelCase l).data.all isAlnumChar = true)
    ∧ toCamelCase "123" = "123" ∧ toCamelCase "!!!" = "" :=
  ⟨toCamelCase_alnum, by decide, by decide⟩

/-- Claim C7: the extracted `inputType` is the explicit `type` attribute
whenever that attribute is present and nonempty; otherwise it is the
lower-cased tag name, which for the selector `input, select, textarea` is
always one of the three element kinds; `fieldType` is always the element
kind. -/
theorem c7_raw_type (e : ElemView)
    (htag : e.tagName = "INPUT" ∨ e.tagName = "SELECT" ∨ e.tagName = "TEXTAREA") :
    (∀ t, e.typeAttr = some t → t ≠ "" → inputTypeOf e = t)
    ∧ ((e.typeAttr = none ∨ e.typeAttr = some "") → inputTypeOf e = lowerStr e.tagName)
    ∧ ((e.typeAttr = none ∨ e.typeAttr = some "") →
        (inputTypeOf e = "input" ∨ inputTypeOf e = "select" ∨ inputTypeOf e = "textarea"))
    ∧ fieldTypeOf e = lowerStr e.tagName := by
  refine ⟨?_, ?_, ?_, rfl⟩
  · intro t h1 h2
    simp [inputTypeOf, jsAttrOr, h1, h2]
  · intro h1
    rcases h1 with h1 | h1 <;> simp [inputTypeOf, jsAttrOr, h1]
  · intro h1
    have hlow : inputTypeOf e = lowerStr e.tagName := by
      rcases h1 with h1 | h1 <;> simp [inputTypeOf, jsAttrOr, h1]
    rw [hlow]
    rcases htag with h | h | h <;> rw [h] <;> decide

/-- Claim C7 (witness): a `textarea` with no explicit type attribute. -/
theorem c7_witness : inputTypeOf c7probe = lowerStr c7probe.tagName :=
  (c7_raw_type c7probe (by decide)).2.1 (Or.inl rfl)

/-- Claim C8 (counterexample): the body `"x []"` contains a well-formed JSON
array substring, which the claimed first-substring behaviour would accept,
yet the code's whole-body parse fails and the run aborts. -/
theorem c8_counterexample :
    hasJsonSub ("x []").data = true ∧ extractFormFieldsResult "x []" = none := by
  decide

/-- Claim C8 (amended): the response body is parsed as one whole JSON
document; the run aborts exactly when the whole body is malformed, with no
search for an embedded well-formed substring. -/
theorem c8_whole_body_parse :
    (∀ body : String, jsonWhole body = false → extractFormFieldsResult body = none)
    ∧ (∀ body : String, jsonWhole body = true → extractFormFieldsResult body = some body) := by
  constructor <;> intro body h <;> simp [extractFormFieldsResult, h]

/-- Claim C8 (witness): concrete accepted and rejected bodies. -/
theorem c8_witness :
    extractFormFieldsResult "x []" = none ∧ extractFormFieldsResult "[]" = some "[]" :=
  ⟨c8_whole_body_parse.1 "x []" (by decide), c8_whole_body_parse.2 "[]" (by decide)⟩

/-- Claim C9: for every token, the derived slug equals the derived title
lower-cased with each space replaced by a hyphen — both insert a separator
at the same lower-or-digit-to-upper boundaries of the camel identifier. -/
theorem c9_slug_title_agreement (t : String) :
    (deriveNames t).slug
      = String.mk (((deriveNames t).title.data.map lowerChar).map
          (fun c => if c = ' ' then '-' else c)) := by
  have hall : (toCamelCase t).data.all isAlnumChar = true := toCamelCase_alnum t
  show kebabOf (toCamelCase t)
      = String.mk (((titleOf (toCamelCase t)).data.map lowerChar).map
          (fun c => if c = ' ' then '-' else c))
  unfold kebabOf
  rw [map_lowerChar_titleOf]
  rw [insB_lower_comm (toCamelCase t).data hall]

/-- Claim C10: every generated model interface opens with a generator-added
`id: number;` line ahead of the schema's own lines (one line per field,
typed `number` exactly when the descriptor's type is `"number"` and
`string` otherwise), and the generated table artifacts identify records by
that `id`: the component's `editItem`/`deleteItem` block keys on `id`, and
the table's action buttons invoke them with `item.id`. -/
theorem c10_implicit_id (pas kebab camel rowsText : String) (fields : List FieldJson) :
    leadsWith ("export interface " ++ pas ++ " \x7b\n  id: number;\n").data
        (generateInterfaceContent pas fields).data = true
    ∧ (interfaceFieldLines fields).length = fields.length
    ∧ (∀ f : FieldJson, (jsTypeOf f = "number" ↔ f.type = some "number")
        ∧ (jsTypeOf f = "string" ↔ ¬f.type = some "number"))
    ∧ occursIn (tableHandlersText camel).data
        (tableComponentTs pas kebab camel rowsText fields).data = true
    ∧ occursIn editClickAttr.data (generateTable fields).data = true
    ∧ occursIn deleteClickAttr.data (generateTable fields).data = true := by
  refine ⟨?_, by simp [interfaceFieldLines], ?_, ?_, ?_, ?_⟩
  · simp only [generateInterfaceContent, String.data_append, List.append_assoc]
    rw [leadsWith_cancel, leadsWith_cancel]
    exact leadsWith_append _ _
  · intro f
    by_cases h : f.type = some "number" <;> simp [jsTypeOf, h]
  · simp only [tableComponentTs, String.data_append, List.append_assoc]
    iterate 27 apply occursIn_append_left
    exact occursIn_here _ _
  · simp only [generateTable, tableActionsColumnText, String.data_append, List.append_assoc]
    iterate 5 apply occursIn_append_left
    exact occursIn_here _ _
  · simp only [generateTable, tableActionsColumnText, String.data_append, List.append_assoc]
    iterate 7 apply occursIn_append_left
    exact occursIn_here _ _

end PrimeGen
